import Mathlib

/-!
Shallow embedding of the Mergington High School activities API
(src/src/app.py): the data model (Activity, Participant tables), the
seeding routine, and the three exposed operations (list activities,
signup, unregister).  The SQLite store is modelled as lists of rows in
insertion order together with the next auto-assigned primary keys;
an HTTP 4xx raised by an endpoint — or the 500 with which FastAPI answers
the unhandled AttributeError that signup's `.count()` call raises — is an
`Except.error` carrying the status code and detail, and in every such case
the store is unchanged (the session commits nothing).
-/

namespace MergingtonHigh

/-- Row of the `activity` table (app.py, class Activity). -/
structure Activity where
  id : Nat
  name : String
  description : Option String
  schedule : Option String
  max_participants : Int
deriving DecidableEq

/-- Row of the `participant` table (app.py, class Participant). -/
structure Participant where
  id : Nat
  email : String
  activity_id : Nat
deriving DecidableEq

/-- The persistent store: both tables in row-insertion order, plus the
next primary keys SQLite would assign. -/
structure Store where
  activities : List Activity
  participants : List Participant
  nextActivityId : Nat
  nextParticipantId : Nat
deriving DecidableEq

/-- An HTTP error reply: a raised `HTTPException(status_code, detail)`,
or the 500 Internal Server Error FastAPI sends for an unhandled
exception. -/
structure HTTPException where
  status_code : Nat
  detail : String
deriving DecidableEq

/-- `session.exec(select(Activity).where(Activity.name == name)).first()`. -/
def findActivity (s : Store) (name : String) : Option Activity :=
  s.activities.find? (fun a => a.name == name)

/-- `session.exec(select(Participant).where(Participant.activity_id == aid)).all()`. -/
def activityParticipants (s : Store) (aid : Nat) : List Participant :=
  s.participants.filter (fun p => p.activity_id == aid)

/-- The emails of the participants registered for activity `aid`,
as returned in the `participants` field of `GET /activities`. -/
def participantEmails (s : Store) (aid : Nat) : List String :=
  (activityParticipants s aid).map (fun p => p.email)

/-- One entry of the JSON array returned by `GET /activities`. -/
structure ActivityView where
  name : String
  description : Option String
  schedule : Option String
  max_participants : Int
  participants : List String
deriving DecidableEq

/-- `GET /activities` (app.py, get_activities): a read-only query. -/
def get_activities (s : Store) : List ActivityView :=
  s.activities.map (fun a =>
    { name := a.name
      description := a.description
      schedule := a.schedule
      max_participants := a.max_participants
      participants := participantEmails s a.id })

/-- Registration predicate used by both endpoints: the duplicate check of
signup and the lookup of unregister run
`select(Participant).where(activity_id == aid, email == e)`. -/
def regMatch (aid : Nat) (e : String) : Participant → Bool :=
  fun p => p.activity_id == aid && p.email == e

/-- `POST /activities/{activity_name}/signup` (app.py, signup_for_activity).
Returns the endpoint result together with the store after the call.  After
the 404 and duplicate checks, line 147 runs
`session.exec(select(Participant).where(...)).count()`; `session.exec`
yields a ScalarResult, which has no `count()` method, so this raises
AttributeError before the capacity comparison of line 148 ever runs.  The
exception leaves the handler, FastAPI answers HTTP 500 "Internal Server
Error", and the session closes without committing, so no row is inserted:
the capacity branch, the success message of line 154 and the insert of
lines 151-153 are dead code. -/
def signup_for_activity (s : Store) (activity_name email : String) :
    Except HTTPException String × Store :=
  match findActivity s activity_name with
  | none => (Except.error ⟨404, "Activity not found"⟩, s)
  | some activity =>
    match s.participants.find? (regMatch activity.id email) with
    | some _ => (Except.error ⟨400, "Student is already signed up"⟩, s)
    | none => (Except.error ⟨500, "Internal Server Error"⟩, s)

/-- `DELETE /activities/{activity_name}/unregister`
(app.py, unregister_from_activity).  `session.delete(participant)` deletes
the row returned by `.first()`, i.e. the first matching row. -/
def unregister_from_activity (s : Store) (activity_name email : String) :
    Except HTTPException String × Store :=
  match findActivity s activity_name with
  | none => (Except.error ⟨404, "Activity not found"⟩, s)
  | some activity =>
    match s.participants.find? (regMatch activity.id email) with
    | none =>
      (Except.error ⟨400, "Student is not signed up for this activity"⟩, s)
    | some _ =>
      (Except.ok ("Unregistered " ++ email ++ " from " ++ activity_name),
       { s with
           participants := s.participants.eraseP
             (regMatch activity.id email) })

/-- The nine seed activities of app.py (name, description, schedule,
max_participants), in source order. -/
def initialActivities : List (String × String × String × Int) :=
  [("Chess Club",
    "Learn strategies and compete in chess tournaments",
    "Fridays, 3:30 PM - 5:00 PM", 12),
   ("Programming Class",
    "Learn programming fundamentals and build software projects",
    "Tuesdays and Thursdays, 3:30 PM - 4:30 PM", 20),
   ("Gym Class",
    "Physical education and sports activities",
    "Mondays, Wednesdays, Fridays, 2:00 PM - 3:00 PM", 30),
   ("Soccer Team",
    "Join the school soccer team and compete in matches",
    "Tuesdays and Thursdays, 4:00 PM - 5:30 PM", 22),
   ("Basketball Team",
    "Practice and play basketball with the school team",
    "Wednesdays and Fridays, 3:30 PM - 5:00 PM", 15),
   ("Art Club",
    "Explore your creativity through painting and drawing",
    "Thursdays, 3:30 PM - 5:00 PM", 15),
   ("Drama Club",
    "Act, direct, and produce plays and performances",
    "Mondays and Wednesdays, 4:00 PM - 5:30 PM", 20),
   ("Math Club",
    "Solve challenging problems and participate in math competitions",
    "Tuesdays, 3:30 PM - 4:30 PM", 10),
   ("Debate Team",
    "Develop public speaking and argumentation skills",
    "Fridays, 4:00 PM - 5:30 PM", 12)]

/-- `session.add(Activity(**act))`: appends a row, SQLite assigning the
next primary key. -/
def addActivity (s : Store) (x : String × String × String × Int) : Store :=
  { s with
      activities := s.activities ++
        [{ id := s.nextActivityId, name := x.1, description := some x.2.1,
           schedule := some x.2.2.1, max_participants := x.2.2.2 }]
      nextActivityId := s.nextActivityId + 1 }

/-- app.py, seed_activities_if_empty: `select(Activity).first()` is `None`
exactly when the activity table is empty; in that case the nine initial
activities are inserted. -/
def seed_activities_if_empty (s : Store) : Store :=
  if s.activities.isEmpty then initialActivities.foldl addActivity s else s

/-- A store with freshly created, empty tables (`SQLModel.metadata.create_all`
on a new database file). -/
def emptyStore : Store :=
  { activities := [], participants := [],
    nextActivityId := 1, nextParticipantId := 1 }

/-- The store right after module import: tables created and the seeder run. -/
def seededStore : Store :=
  seed_activities_if_empty emptyStore

/-- A store in which Math Club (id 8, capacity 10) is exactly full:
ten registered students. -/
def fullMathClubStore : Store :=
  { seededStore with
      participants := (List.range 10).map
        (fun i => { id := i + 1, email := "s" ++ toString i ++ "@x.com",
                    activity_id := 8 })
      nextParticipantId := 11 }

/-- A store in which a@x.com holds the sole registration, for Chess Club
(id 1). -/
def chessRegStore : Store :=
  { seededStore with
      participants := [{ id := 1, email := "a@x.com", activity_id := 1 }]
      nextParticipantId := 2 }

/-- A store in which a@x.com holds the sole registration, for Programming
Class (id 2). -/
def progRegStore : Store :=
  { seededStore with
      participants := [{ id := 1, email := "a@x.com", activity_id := 2 }]
      nextParticipantId := 2 }

/-- One call to an exposed endpoint. -/
inductive Op where
  | list
  | signup (activity_name email : String)
  | unregister (activity_name email : String)

/-- Effect of one endpoint call on the store.  `GET /activities` only
reads, so it leaves the store as is. -/
def applyOp (s : Store) : Op → Store
  | Op.list => s
  | Op.signup n e => (signup_for_activity s n e).2
  | Op.unregister n e => (unregister_from_activity s n e).2

/-- Stores reachable from the freshly seeded store by a sequence of
single-threaded endpoint calls. -/
inductive Reachable : Store → Prop where
  | seed : Reachable seededStore
  | step : ∀ {s : Store} (op : Op), Reachable s → Reachable (applyOp s op)

/-- Capacity invariant of spec §3: no activity has more participant rows
than its max_participants. -/
def CapacityInv (s : Store) : Prop :=
  ∀ a ∈ s.activities,
    ((activityParticipants s a.id).length : Int) ≤ a.max_participants

lemma regMatch_def (aid : Nat) (e : String) (p : Participant) :
    regMatch aid e p = (p.activity_id == aid && p.email == e) := rfl

/-- Not appearing in an activity's email list is the same as the
signup/unregister row lookup coming up empty. -/
lemma not_mem_emails_iff_find?_eq_none (s : Store) (aid : Nat) (e : String) :
    e ∉ participantEmails s aid ↔
      s.participants.find? (regMatch aid e) = none := by
  rw [List.find?_eq_none]
  unfold participantEmails activityParticipants
  constructor
  · intro h p hp hreg
    rw [regMatch_def, Bool.and_eq_true, beq_iff_eq, beq_iff_eq] at hreg
    exact h (List.mem_map.mpr
      ⟨p, List.mem_filter.mpr ⟨hp, by simp [hreg.1]⟩, hreg.2⟩)
  · intro h hmem
    obtain ⟨p, hpf, hpe⟩ := List.mem_map.mp hmem
    obtain ⟨hpmem, hpa⟩ := List.mem_filter.mp hpf
    refine h p hpmem ?_
    rw [regMatch_def, Bool.and_eq_true]
    exact ⟨by simpa using hpa, by simpa using hpe⟩

/-- C1 (code bug): the claim's success scenario — an existing, non-full
activity and an email not yet registered for it — does not return HTTP 200:
the `.count()` call at app.py line 147 raises AttributeError, the endpoint
answers HTTP 500 and no Participant row is inserted.  Evaluated here at the
seeded store, Chess Club (0 of 12 participants) and a@x.com. -/
theorem signup_open_activity_returns_500 :
    signup_for_activity seededStore "Chess Club" "a@x.com" =
      (Except.error ⟨500, "Internal Server Error"⟩, seededStore) := rfl

/-- C2: if `e` is already registered for the activity named `n` (first match
`a`), `signup(n, e)` returns HTTP 400 with detail "Student is already signed
up" and leaves the store — in particular the activity's participant count —
unchanged. -/
theorem signup_duplicate_conflict (s : Store) (n e : String) (a : Activity)
    (ha : findActivity s n = some a)
    (hreg : e ∈ participantEmails s a.id) :
    signup_for_activity s n e =
      (Except.error ⟨400, "Student is already signed up"⟩, s) := by
  cases hfind : s.participants.find? (regMatch a.id e) with
  | none =>
    exact absurd hreg ((not_mem_emails_iff_find?_eq_none s a.id e).mpr hfind)
  | some p =>
    unfold signup_for_activity
    simp only [ha, hfind]

theorem signup_duplicate_conflict_witness :
    signup_for_activity chessRegStore "Chess Club" "a@x.com" =
      (Except.error ⟨400, "Student is already signed up"⟩, chessRegStore) :=
  signup_duplicate_conflict chessRegStore "Chess Club" "a@x.com"
    { id := 1, name := "Chess Club",
      description := some "Learn strategies and compete in chess tournaments",
      schedule := some "Fridays, 3:30 PM - 5:00 PM", max_participants := 12 }
    (by decide) (by decide)

/-- C3 (code bug): at a full activity the endpoint does not answer HTTP
400 "Activity is full": the AttributeError at app.py line 147 fires before
the capacity comparison of line 148, so the endpoint answers HTTP 500 and
creates no record.  Evaluated here at a store whose Math Club (capacity 10)
holds ten participants, with a fresh email. -/
theorem signup_full_activity_returns_500 :
    signup_for_activity fullMathClubStore "Math Club" "z@x.com" =
      (Except.error ⟨500, "Internal Server Error"⟩, fullMathClubStore) := rfl

/-- C5: if no Activity is named `n`, both `signup(n, e)` and
`unregister(n, e)` return HTTP 404 with detail "Activity not found" and
leave the store unchanged. -/
theorem unknown_activity_not_found (s : Store) (n e : String)
    (h : ∀ a ∈ s.activities, a.name ≠ n) :
    signup_for_activity s n e =
      (Except.error ⟨404, "Activity not found"⟩, s) ∧
    unregister_from_activity s n e =
      (Except.error ⟨404, "Activity not found"⟩, s) := by
  have hfind : findActivity s n = none := by
    unfold findActivity
    rw [List.find?_eq_none]
    intro a ha
    simpa using h a ha
  refine ⟨?_, ?_⟩
  · unfold signup_for_activity
    simp only [hfind]
  · unfold unregister_from_activity
    simp only [hfind]

theorem unknown_activity_not_found_witness :
    signup_for_activity seededStore "Knitting Club" "a@x.com" =
      (Except.error ⟨404, "Activity not found"⟩, seededStore) ∧
    unregister_from_activity seededStore "Knitting Club" "a@x.com" =
      (Except.error ⟨404, "Activity not found"⟩, seededStore) :=
  unknown_activity_not_found seededStore "Knitting Club" "a@x.com" (by decide)

/-- Erasing the first match from a list holding at most one match leaves a
list with no match. -/
lemma filter_eraseP_eq_nil {α : Type} (l : List α) (p : α → Bool)
    (h : (l.filter p).length ≤ 1) : (l.eraseP p).filter p = [] := by
  induction l with
  | nil => rfl
  | cons a l ih =>
    by_cases hpa : p a
    · rw [List.eraseP_cons_of_pos hpa]
      rw [List.filter_cons_of_pos hpa, List.length_cons,
        Nat.add_le_add_iff_right, Nat.le_zero] at h
      exact List.length_eq_zero.mp h
    · rw [List.eraseP_cons_of_neg hpa, List.filter_cons_of_neg hpa]
      rw [List.filter_cons_of_neg hpa] at h
      exact ih h

/-- C4: if `e` is registered for the existing activity named `n` (first
match `a`) — with at most one matching row, as the §3 uniqueness invariant
guarantees — then `unregister(n, e)` returns HTTP 200 with the confirmation
message and removes `e` from the activity's participant list, and a second
`unregister(n, e)` on the resulting store returns HTTP 400 with detail
"Student is not signed up for this activity". -/
theorem unregister_removes_email_then_fails (s : Store) (n e : String)
    (a : Activity)
    (ha : findActivity s n = some a)
    (hreg : e ∈ participantEmails s a.id)
    (huniq : (s.participants.filter (regMatch a.id e)).length ≤ 1) :
    ∃ t : Store,
      unregister_from_activity s n e =
        (Except.ok ("Unregistered " ++ e ++ " from " ++ n), t) ∧
      e ∉ participantEmails t a.id ∧
      unregister_from_activity t n e =
        (Except.error ⟨400, "Student is not signed up for this activity"⟩,
         t) := by
  have hne : s.participants.find? (regMatch a.id e) ≠ none := fun h0 =>
    (not_mem_emails_iff_find?_eq_none s a.id e).mpr h0 hreg
  obtain ⟨p, hp⟩ := Option.ne_none_iff_exists'.mp hne
  have hnil : (s.participants.eraseP (regMatch a.id e)).filter
      (regMatch a.id e) = [] := filter_eraseP_eq_nil _ _ huniq
  refine ⟨{ s with participants := s.participants.eraseP (regMatch a.id e) },
    ?_, ?_, ?_⟩
  · unfold unregister_from_activity
    simp only [ha, hp]
  · rw [not_mem_emails_iff_find?_eq_none]
    show (s.participants.eraseP (regMatch a.id e)).find? (regMatch a.id e) =
      none
    rw [List.find?_eq_none]
    intro x hx hpx
    have hmem : x ∈ (s.participants.eraseP (regMatch a.id e)).filter
        (regMatch a.id e) := List.mem_filter.mpr ⟨hx, hpx⟩
    rw [hnil] at hmem
    exact absurd hmem (List.not_mem_nil x)
  · have ha2 : findActivity
        { s with participants := s.participants.eraseP (regMatch a.id e) } n =
        some a := ha
    have hf2 : (s.participants.eraseP (regMatch a.id e)).find?
        (regMatch a.id e) = none := by
      rw [List.find?_eq_none]
      intro x hx hpx
      have hmem : x ∈ (s.participants.eraseP (regMatch a.id e)).filter
          (regMatch a.id e) := List.mem_filter.mpr ⟨hx, hpx⟩
      rw [hnil] at hmem
      exact absurd hmem (List.not_mem_nil x)
    unfold unregister_from_activity
    simp only [ha2, hf2]

theorem unregister_removes_email_then_fails_witness :
    ∃ t : Store,
      unregister_from_activity chessRegStore "Chess Club" "a@x.com" =
        (Except.ok ("Unregistered " ++ "a@x.com" ++ " from " ++ "Chess Club"),
         t) ∧
      "a@x.com" ∉ participantEmails t 1 ∧
      unregister_from_activity t "Chess Club" "a@x.com" =
        (Except.error ⟨400, "Student is not signed up for this activity"⟩,
         t) :=
  unregister_removes_email_then_fails chessRegStore "Chess Club" "a@x.com"
    { id := 1, name := "Chess Club",
      description := some "Learn strategies and compete in chess tournaments",
      schedule := some "Fridays, 3:30 PM - 5:00 PM", max_participants := 12 }
    (by decide) (by decide) (by decide)

/-- Every signup branch — 404, duplicate 400, or the 500 from the broken
count call — leaves the store unchanged. -/
lemma signup_state_id (s : Store) (n e : String) :
    (signup_for_activity s n e).2 = s := by
  cases hf : findActivity s n with
  | none =>
    unfold signup_for_activity
    simp only [hf]
  | some a =>
    cases hf2 : s.participants.find? (regMatch a.id e) with
    | some p =>
      unfold signup_for_activity
      simp only [hf, hf2]
    | none =>
      unfold signup_for_activity
      simp only [hf, hf2]

lemma signup_preserves_activities (s : Store) (n e : String) :
    ((signup_for_activity s n e).2).activities = s.activities := by
  rw [signup_state_id]

lemma unregister_preserves_activities (s : Store) (n e : String) :
    ((unregister_from_activity s n e).2).activities = s.activities := by
  cases hf : findActivity s n with
  | none =>
    unfold unregister_from_activity
    simp only [hf]
  | some a =>
    cases hf2 : s.participants.find? (regMatch a.id e) with
    | none =>
      unfold unregister_from_activity
      simp only [hf, hf2]
    | some p =>
      unfold unregister_from_activity
      simp only [hf, hf2]

lemma applyOp_activities (s : Store) (op : Op) :
    (applyOp s op).activities = s.activities := by
  cases op with
  | list => rfl
  | signup n e => exact signup_preserves_activities s n e
  | unregister n e => exact unregister_preserves_activities s n e

/-- C7: no exposed endpoint call (list, signup or unregister) mutates or
deletes an Activity record: the activity table — every row's id, name,
description, schedule and max_participants — is identical before and after
the call. -/
theorem exposed_ops_preserve_activities (s : Store) (op : Op) :
    (applyOp s op).activities = s.activities :=
  applyOp_activities s op

lemma capacityInv_signup (s : Store) (n e : String)
    (hc : CapacityInv s) : CapacityInv ((signup_for_activity s n e).2) := by
  rw [signup_state_id]
  exact hc

lemma capacityInv_unregister (s : Store) (n e : String)
    (hc : CapacityInv s) : CapacityInv ((unregister_from_activity s n e).2) := by
  cases hf : findActivity s n with
  | none =>
    unfold unregister_from_activity
    simp only [hf]
    exact hc
  | some a =>
    cases hf2 : s.participants.find? (regMatch a.id e) with
    | none =>
      unfold unregister_from_activity
      simp only [hf, hf2]
      exact hc
    | some p =>
      unfold unregister_from_activity
      simp only [hf, hf2]
      intro b hb
      have hb' : b ∈ s.activities := hb
      have hsub : List.Sublist
          ((s.participants.eraseP (regMatch a.id e)).filter
            (fun q => q.activity_id == b.id))
          (s.participants.filter (fun q => q.activity_id == b.id)) :=
        List.Sublist.filter _ (List.eraseP_sublist _)
      calc ((List.filter (fun q => q.activity_id == b.id)
            (s.participants.eraseP (regMatch a.id e))).length : Int)
          ≤ ((activityParticipants s b.id).length : Int) := by
            exact_mod_cast hsub.length_le
        _ ≤ b.max_participants := hc b hb'

/-- C6: in every store reachable from the freshly seeded store by a
sequence of single-threaded endpoint calls, no activity's participant-row
count ever exceeds its max_participants. -/
theorem reachable_capacity_bound (s : Store) (h : Reachable s) :
    CapacityInv s := by
  induction h with
  | seed =>
    unfold CapacityInv
    decide
  | step op hr ih =>
    cases op with
    | list => exact ih
    | signup n e => exact capacityInv_signup _ n e ih
    | unregister n e => exact capacityInv_unregister _ n e ih

theorem reachable_capacity_bound_witness :
    CapacityInv (applyOp seededStore (Op.signup "Gym Class" "a@x.com")) :=
  reachable_capacity_bound _
    (Reachable.step (Op.signup "Gym Class" "a@x.com") Reachable.seed)

/-- C8: run on a store whose activity table is empty (so, by the
Participant-to-Activity foreign key, with no participant rows either), the
seeding routine inserts exactly the nine fixed activities with their
specified name, description, schedule and capacity, each with an empty
participant set; run on a store whose activity table is non-empty it
inserts nothing. -/
theorem seeding_inserts_nine_once :
    (∀ s : Store, s.activities = [] →
      (∀ p ∈ s.participants, ∃ a ∈ s.activities, p.activity_id = a.id) →
      (seed_activities_if_empty s).activities.map
          (fun a => (a.name, a.description, a.schedule, a.max_participants)) =
        initialActivities.map
          (fun x => (x.1, some x.2.1, some x.2.2.1, x.2.2.2)) ∧
      ∀ a ∈ (seed_activities_if_empty s).activities,
        participantEmails (seed_activities_if_empty s) a.id = []) ∧
    (∀ s : Store, s.activities ≠ [] → seed_activities_if_empty s = s) := by
  constructor
  · intro s hemp hri
    have hpart : s.participants = [] := by
      rw [List.eq_nil_iff_forall_not_mem]
      intro p hp
      obtain ⟨a, haa, _⟩ := hri p hp
      rw [hemp] at haa
      exact absurd haa (List.not_mem_nil a)
    obtain ⟨acts, parts, m, k⟩ := s
    simp only at hemp hpart
    subst hemp
    subst hpart
    constructor
    · simp [seed_activities_if_empty, initialActivities, addActivity,
        List.foldl]
    · intro a _
      unfold participantEmails activityParticipants
      have hps : (seed_activities_if_empty
          { activities := [], participants := [], nextActivityId := m,
            nextParticipantId := k }).participants = [] := by
        simp [seed_activities_if_empty, initialActivities, addActivity,
          List.foldl]
      rw [hps]
      rfl
  · intro s hne
    unfold seed_activities_if_empty
    rw [if_neg]
    simpa [List.isEmpty_iff] using hne

theorem seeding_inserts_nine_once_witness :
    ((seed_activities_if_empty emptyStore).activities.map
        (fun a => (a.name, a.description, a.schedule, a.max_participants)) =
      initialActivities.map
        (fun x => (x.1, some x.2.1, some x.2.2.1, x.2.2.2))) ∧
    seed_activities_if_empty seededStore = seededStore :=
  ⟨(seeding_inserts_nine_once.1 emptyStore rfl
      (by intro p hp; exact absurd hp (List.not_mem_nil p))).1,
   seeding_inserts_nine_once.2 seededStore (by decide)⟩

/-- C9 (code bug): the signup success the claim starts from never occurs:
every signup call returns an error — 404 for an unknown activity, 400 for a
duplicate, or the 500 raised at the `.count()` call of app.py line 147 — so
no Participant row is ever created and the signup/unregister roundtrip of
lines 151-154 and 164-172 cannot be exercised. -/
theorem signup_always_errors (s : Store) (n e : String) :
    ∃ err : HTTPException,
      (signup_for_activity s n e).1 = Except.error err := by
  cases hf : findActivity s n with
  | none =>
    refine ⟨⟨404, "Activity not found"⟩, ?_⟩
    unfold signup_for_activity
    simp only [hf]
  | some a =>
    cases hf2 : s.participants.find? (regMatch a.id e) with
    | some p =>
      refine ⟨⟨400, "Student is already signed up"⟩, ?_⟩
      unfold signup_for_activity
      simp only [hf, hf2]
    | none =>
      refine ⟨⟨500, "Internal Server Error"⟩, ?_⟩
      unfold signup_for_activity
      simp only [hf, hf2]

lemma find?_filter_eq {α : Type} (l : List α) (p q : α → Bool) :
    (l.filter p).find? q = l.find? (fun x => p x && q x) := by
  induction l with
  | nil => rfl
  | cons a l ih =>
    by_cases hp : p a
    · rw [List.filter_cons_of_pos hp]
      by_cases hq : q a
      · rw [List.find?_cons_of_pos _ hq,
          List.find?_cons_of_pos _ (by simp [hp, hq])]
      · rw [List.find?_cons_of_neg _ hq,
          List.find?_cons_of_neg _ (by simp [hp, hq])]
        exact ih
    · rw [List.filter_cons_of_neg hp,
        List.find?_cons_of_neg _ (by simp [hp])]
      exact ih

/-- The duplicate-check lookup factors through the activity's own
participant rows. -/
lemma find?_regMatch_eq_emailFind (s : Store) (aid : Nat) (e : String) :
    s.participants.find? (regMatch aid e) =
      (activityParticipants s aid).find? (fun p => p.email == e) := by
  unfold activityParticipants
  rw [find?_filter_eq]
  rfl

/-- C10 (amended): the outcome of `signup(n, e)` — the 404, the duplicate
400, or the 500 from the broken count call — depends only on the activity
table and on activity `n`'s own participant rows: two stores with the same
activities and the same participant rows for the activity named `n` produce
the same signup outcome, so registrations for other activities never cause
a duplicate Conflict for `n`.  No signup ever succeeds and CapacityExceeded
is never reached, so an email registered for one activity cannot in fact
sign up for another — see the counterexample below. -/
theorem signup_outcome_depends_only_on_own_records (s1 s2 : Store)
    (n e : String)
    (hacts : s1.activities = s2.activities)
    (hpart : ∀ a : Activity, findActivity s1 n = some a →
      activityParticipants s1 a.id = activityParticipants s2 a.id) :
    (signup_for_activity s1 n e).1 = (signup_for_activity s2 n e).1 := by
  have hfa : findActivity s2 n = findActivity s1 n := by
    unfold findActivity
    rw [hacts]
  cases hf : findActivity s1 n with
  | none =>
    unfold signup_for_activity
    simp only [hfa, hf]
  | some a =>
    have hp := hpart a hf
    have hfind : s2.participants.find? (regMatch a.id e) =
        s1.participants.find? (regMatch a.id e) := by
      rw [find?_regMatch_eq_emailFind, find?_regMatch_eq_emailFind, hp]
    unfold signup_for_activity
    simp only [hfa, hf, hfind]
    cases hf2 : s1.participants.find? (regMatch a.id e) with
    | some p => simp only [hf2]
    | none => simp only [hf2]

theorem signup_outcome_depends_only_on_own_records_witness :
    (signup_for_activity progRegStore "Chess Club" "b@x.com").1 =
      (signup_for_activity seededStore "Chess Club" "b@x.com").1 :=
  signup_outcome_depends_only_on_own_records progRegStore seededStore
    "Chess Club" "b@x.com" (by decide)
    (fun a ha => by
      rw [show findActivity progRegStore "Chess Club" =
        some { id := 1, name := "Chess Club",
               description :=
                 some "Learn strategies and compete in chess tournaments",
               schedule := some "Fridays, 3:30 PM - 5:00 PM",
               max_participants := 12 } from by decide] at ha
      injection ha with hae
      subst hae
      decide)

/-- C10 counterexample: a@x.com is registered for Programming Class (id 2)
only; Chess Club (id 1) exists with 0 of 12 participants and no such
registration; yet signup("Chess Club", a@x.com) does not succeed — it
answers HTTP 500 because of the `.count()` AttributeError at app.py
line 147, refuting "an email registered for one activity can still sign up
for any other existing, non-full activity". -/
theorem signup_cross_activity_refuted :
    "a@x.com" ∈ participantEmails progRegStore 2 ∧
    "a@x.com" ∉ participantEmails progRegStore 1 ∧
    (findActivity progRegStore "Chess Club").isSome = true ∧
    ((activityParticipants progRegStore 1).length : Int) < 12 ∧
    (signup_for_activity progRegStore "Chess Club" "a@x.com").1 =
      Except.error ⟨500, "Internal Server Error"⟩ :=
  ⟨by decide, by decide, by decide, by decide, rfl⟩

end MergingtonHigh
